import Mathlib

set_option autoImplicit false

/-!
Verification of the Apple App Store Server Notification webhook service.

The definitions below are a shallow embedding of the repository's Python
sources:

* `src/app/core/apple_jws.py`          (`AppleJWSVerifier`)
* `src/app/api/routes/apple_webhook.py` (`apple_webhook` endpoint)
* `src/app/services/notification_processor.py` (`NotificationProcessor`)
* `src/app/services/subscription_service.py`   (`SubscriptionService`)
* `src/app/models/subscription.py`     (ORM models)

JSON values are modelled with integer numerals and ASCII strings; the
Python standard-library functions the code calls (`json.loads`,
`base64.b64decode`, truthiness, `in`) are modelled executably on that
fragment.  Machine-level detail that the claims do not touch (floats,
non-ASCII text) is outside the modelled domain: the model's decoders fail
there, and every theorem routes both its hypotheses and its conclusions
through the same modelled decoders.
-/

namespace AppleWebhook

/-- JSON values as the Python code sees them after `json.loads`:
`dict`s are association lists (keys unique, insertion ordered),
numbers are integers (the notification payloads relevant to the claims
carry only integral numbers). -/
inductive Json where
  | null : Json
  | bool (b : Bool) : Json
  | num (n : Int) : Json
  | str (s : String) : Json
  | arr (elems : List Json) : Json
  | obj (fields : List (String × Json)) : Json
  deriving Repr

/-- Python errors that the embedded code can raise. -/
inductive PyErr where
  | typeError
  | attributeError
  | valueError
  | nameError
  | httpException (code : Nat)
  deriving Repr, DecidableEq

mutual
/-- Decidable equality on `Json` (structural, as Python `==` on the
corresponding values of one type). -/
def Json.beq : Json → Json → Bool
  | .null, .null => true
  | .bool a, .bool b => a == b
  | .num a, .num b => a == b
  | .str a, .str b => a == b
  | .arr a, .arr b => Json.beqList a b
  | .obj a, .obj b => Json.beqFields a b
  | _, _ => false

def Json.beqList : List Json → List Json → Bool
  | [], [] => true
  | a :: as, b :: bs => Json.beq a b && Json.beqList as bs
  | _, _ => false

def Json.beqFields : List (String × Json) → List (String × Json) → Bool
  | [], [] => true
  | (k, v) :: as, (k2, v2) :: bs => k == k2 && Json.beq v v2 && Json.beqFields as bs
  | _, _ => false
end

mutual
theorem Json.beq_iff : ∀ a b : Json, Json.beq a b = true ↔ a = b
  | .null, .null => by simp [Json.beq]
  | .bool a, .bool b => by simp [Json.beq]
  | .num a, .num b => by simp [Json.beq]
  | .str a, .str b => by simp [Json.beq]
  | .arr a, .arr b => by simp [Json.beq, Json.beqList_iff a b]
  | .obj a, .obj b => by simp [Json.beq, Json.beqFields_iff a b]
  | .null, .bool _ | .null, .num _ | .null, .str _ | .null, .arr _ | .null, .obj _
  | .bool _, .null | .bool _, .num _ | .bool _, .str _ | .bool _, .arr _ | .bool _, .obj _
  | .num _, .null | .num _, .bool _ | .num _, .str _ | .num _, .arr _ | .num _, .obj _
  | .str _, .null | .str _, .bool _ | .str _, .num _ | .str _, .arr _ | .str _, .obj _
  | .arr _, .null | .arr _, .bool _ | .arr _, .num _ | .arr _, .str _ | .arr _, .obj _
  | .obj _, .null | .obj _, .bool _ | .obj _, .num _ | .obj _, .str _ | .obj _, .arr _ => by
      simp [Json.beq]

theorem Json.beqList_iff : ∀ a b : List Json, Json.beqList a b = true ↔ a = b
  | [], [] => by simp [Json.beqList]
  | [], _ :: _ => by simp [Json.beqList]
  | _ :: _, [] => by simp [Json.beqList]
  | a :: as, b :: bs => by
      simp [Json.beqList, Json.beq_iff a b, Json.beqList_iff as bs]

theorem Json.beqFields_iff : ∀ a b : List (String × Json), Json.beqFields a b = true ↔ a = b
  | [], [] => by simp [Json.beqFields]
  | [], _ :: _ => by simp [Json.beqFields]
  | _ :: _, [] => by simp [Json.beqFields]
  | (k, v) :: as, (k2, v2) :: bs => by
      simp [Json.beqFields, Json.beq_iff v v2, Json.beqFields_iff as bs, and_assoc]
end

instance : DecidableEq Json := fun a b =>
  decidable_of_iff (Json.beq a b = true) (Json.beq_iff a b)

/-- `d.get(k)` on a Python dict (`None`-free lookup): first binding wins
(the model keeps keys unique, as `json.loads` produces). -/
def Json.get? : Json → String → Option Json
  | .obj fields, k => (fields.find? (fun p => p.1 = k)).map (·.2)
  | _, _ => none

/-- `d.get(k, default)` on a Python dict. -/
def Json.getD (j : Json) (k : String) (d : Json) : Json :=
  (j.get? k).getD d

/-- Python truthiness (`bool(v)`) of a JSON value. -/
def pyTruthy : Json → Bool
  | .null => false
  | .bool b => b
  | .num n => n != 0
  | .str s => s ≠ ""
  | .arr l => l ≠ []
  | .obj l => l ≠ []

/-- `isinstance(v, dict)`. -/
def Json.isObj : Json → Bool
  | .obj _ => true
  | _ => false

/-- `isinstance(v, str)`. -/
def Json.isStr : Json → Bool
  | .str _ => true
  | _ => false

/-- Leading-match helper for the substring check. -/
def leadMatch : List Char → List Char → Bool
  | [], _ => true
  | _ :: _, [] => false
  | c :: cs, d :: ds => c = d && leadMatch cs ds

/-- Contiguous-occurrence helper for the substring check. -/
def containsList (need : List Char) : List Char → Bool
  | [] => need.isEmpty
  | d :: ds => leadMatch need (d :: ds) || containsList need ds

/-- Python `needle in haystack` on strings (substring containment). -/
def strContains (hay need : String) : Bool :=
  containsList need.toList hay.toList

/-- Python `k in v` for a string key `k`: dict key lookup, substring test
on strings, membership on lists, `TypeError` on the remaining types. -/
def pyContains (j : Json) (k : String) : Except PyErr Bool :=
  match j with
  | .obj fields => .ok ((fields.find? (fun p => p.1 = k)).isSome)
  | .str s => .ok (strContains s k)
  | .arr elems => .ok (elems.contains (.str k))
  | _ => .error .typeError

/-- `v.get(k, default)` where `v` may not be a dict
(non-dicts raise `AttributeError`, as in Python). -/
def pyGetD (j : Json) (k : String) (d : Json) : Except PyErr Json :=
  match j with
  | .obj _ => .ok (j.getD k d)
  | _ => .error .attributeError

/-- `v.get(k)` where `v` may not be a dict. -/
def pyGet (j : Json) (k : String) : Except PyErr Json :=
  pyGetD j k .null

/-- Python dict item assignment `d[k] = v`: replaces an existing binding
in place, appends a new one; any non-dict target raises `TypeError`
(for strings: `TypeError: str object does not support item assignment`). -/
def pyAssign (j : Json) (k : String) (v : Json) : Except PyErr Json :=
  match j with
  | .obj fields =>
      if (fields.find? (fun p => p.1 = k)).isSome then
        .ok (.obj (fields.map (fun p => if p.1 = k then (k, v) else p)))
      else
        .ok (.obj (fields ++ [(k, v)]))
  | _ => .error .typeError

/-! ### Base64 (`base64.b64decode` and the mathematical base64url decoding)

`apple_jws.py` and `notification_processor.py` decode every token segment
with the STANDARD-alphabet `base64.b64decode` (default `validate=False`,
which silently discards characters outside the standard alphabet — in
particular the base64url characters `-` and `_`), after appending
`'=' * (4 - len % 4)`.  We model both that lenient standard decoder and
the proper base64url decoding, over byte lists. -/

/-- Value of a character in the standard base64 alphabet
(`A-Z a-z 0-9 + /`). -/
def b64stdVal (c : Char) : Option Nat :=
  let n := c.toNat
  if 65 ≤ n ∧ n ≤ 90 then some (n - 65)
  else if 97 ≤ n ∧ n ≤ 122 then some (n - 71)
  else if 48 ≤ n ∧ n ≤ 57 then some (n + 4)
  else if n = 43 then some 62
  else if n = 47 then some 63
  else none

/-- Value of a character in the base64url alphabet (`A-Z a-z 0-9 - _`). -/
def b64urlVal (c : Char) : Option Nat :=
  let n := c.toNat
  if 65 ≤ n ∧ n ≤ 90 then some (n - 65)
  else if 97 ≤ n ∧ n ≤ 122 then some (n - 71)
  else if 48 ≤ n ∧ n ≤ 57 then some (n + 4)
  else if n = 45 then some 62
  else if n = 95 then some 63
  else none

/-- Reassemble a list of 6-bit values into bytes: full quads give 3 bytes,
a trailing pair gives 1 byte, a trailing triple 2 bytes, and a trailing
single value is a length error (`binascii.Error`, modelled as `none`);
unused trailing bits are discarded, as `binascii` does. -/
def sextetsToBytes : List Nat → Option (List Nat)
  | [] => some []
  | [_] => none
  | [a, b] => some [a * 4 + b / 16]
  | [a, b, c] => some [a * 4 + b / 16, b % 16 * 16 + c / 4]
  | a :: b :: c :: d :: rest =>
      (sextetsToBytes rest).map
        (fun bs => (a * 4 + b / 16) :: ((b % 16 * 16 + c / 4) :: ((c % 4 * 64 + d) :: bs)))

/-- Map every character through an alphabet, failing on the first
character outside it. -/
def sextetsOfChars (val : Char → Option Nat) : List Char → Option (List Nat)
  | [] => some []
  | c :: cs =>
      match val c, sextetsOfChars val cs with
      | some v, some vs => some (v :: vs)
      | _, _ => none

/-- The base64url decoding of a (possibly unpadded) segment: every
character must belong to the base64url alphabet.  This is what a strict
JOSE implementation (`python-jose`) applies to a JWS segment. -/
def b64urlDecode (s : String) : Option (List Nat) :=
  (sextetsOfChars b64urlVal s.toList).bind sextetsToBytes

/-- Python `base64.b64decode(s)` with the default `validate=False`, on
inputs whose `=` characters (if any) are trailing: characters outside the
standard alphabet — including `-`, `_` and the padding `=` — are
discarded, then the remaining values are reassembled (excess padding is
tolerated, a leftover length of 1 is an error). -/
def pyB64decode (s : String) : Option (List Nat) :=
  sextetsToBytes (s.toList.filterMap b64stdVal)

/-- The padding restoration applied by `apple_jws.py` and
`apple_webhook.py`: `segment + '=' * (4 - len(segment) % 4)` (note: a
length that is already a multiple of 4 receives four `=`). -/
def padSegment (s : String) : String :=
  s ++ String.mk (List.replicate (4 - s.length % 4) '=')

/-! ### `json.loads`

Executable model of `json.loads` on the ASCII/integer fragment: bytes
are parsed into `Json`; floats, `\u` escapes and non-ASCII bytes are
outside the modelled domain (the model parser fails there). -/

/-- JSON whitespace skip. -/
def skipWs : List Nat → List Nat
  | 32 :: r => skipWs r
  | 9 :: r => skipWs r
  | 10 :: r => skipWs r
  | 13 :: r => skipWs r
  | bs => bs

/-- One-character JSON string escapes (no `\u`). -/
def escChar : Nat → Option Char
  | 34 => some '"'
  | 92 => some '\\'
  | 47 => some '/'
  | 98 => some (Char.ofNat 8)
  | 102 => some (Char.ofNat 12)
  | 110 => some '\n'
  | 114 => some '\r'
  | 116 => some '\t'
  | _ => none

/-- Parse the body of a JSON string after the opening quote, up to the
closing quote; printable ASCII only. -/
def parseStringBody : List Nat → Option (List Char × List Nat)
  | [] => none
  | 34 :: rest => some ([], rest)
  | 92 :: e :: rest =>
      match escChar e, parseStringBody rest with
      | some c, some (cs, r) => some (c :: cs, r)
      | _, _ => none
  | b :: rest =>
      if 32 ≤ b ∧ b < 127 then
        match parseStringBody rest with
        | some (cs, r) => some (Char.ofNat b :: cs, r)
        | none => none
      else none

/-- Parse a nonempty run of decimal digits. -/
def parseDigits : List Nat → Option (Nat × List Nat)
  | b :: rest =>
      if 48 ≤ b ∧ b ≤ 57 then
        match parseDigits rest with
        | some (n, r) => some ((b - 48) * 10 ^ (rest.length - r.length) + n, r)
        | none => some (b - 48, rest)
      else none
  | [] => none

mutual

/-- Parse one JSON value (fuel-indexed recursive descent). -/
def parseValue : Nat → List Nat → Option (Json × List Nat)
  | 0, _ => none
  | fuel + 1, bs =>
      match skipWs bs with
      | 110 :: 117 :: 108 :: 108 :: r => some (.null, r)
      | 116 :: 114 :: 117 :: 101 :: r => some (.bool true, r)
      | 102 :: 97 :: 108 :: 115 :: 101 :: r => some (.bool false, r)
      | 34 :: r =>
          match parseStringBody r with
          | some (cs, r2) => some (.str (String.mk cs), r2)
          | none => none
      | 123 :: r =>
          (match skipWs r with
           | 125 :: r2 => some (.obj [], r2)
           | r2 =>
              match parseMembers fuel r2 with
              | some (fs, r3) => some (.obj fs, r3)
              | none => none)
      | 91 :: r =>
          (match skipWs r with
           | 93 :: r2 => some (.arr [], r2)
           | r2 =>
              match parseElems fuel r2 with
              | some (es, r3) => some (.arr es, r3)
              | none => none)
      | 45 :: r =>
          match parseDigits r with
          | some (n, r2) => some (.num (-(n : Int)), r2)
          | none => none
      | b :: r =>
          if 48 ≤ b ∧ b ≤ 57 then
            match parseDigits (b :: r) with
            | some (n, r2) => some (.num (n : Int), r2)
            | none => none
          else none
      | [] => none

/-- Parse the members of a nonempty JSON object, including the closing
brace. -/
def parseMembers : Nat → List Nat → Option (List (String × Json) × List Nat)
  | 0, _ => none
  | fuel + 1, bs =>
      match skipWs bs with
      | 34 :: r =>
          match parseStringBody r with
          | some (cs, r2) =>
              (match skipWs r2 with
               | 58 :: r3 =>
                  (match parseValue fuel r3 with
                   | some (v, r4) =>
                      (match skipWs r4 with
                       | 44 :: r5 =>
                          (match parseMembers fuel r5 with
                           | some (fs, r6) => some ((String.mk cs, v) :: fs, r6)
                           | none => none)
                       | 125 :: r5 => some ([(String.mk cs, v)], r5)
                       | _ => none)
                   | none => none)
               | _ => none)
          | none => none
      | _ => none

/-- Parse the elements of a nonempty JSON array, including the closing
bracket. -/
def parseElems : Nat → List Nat → Option (List Json × List Nat)
  | 0, _ => none
  | fuel + 1, bs =>
      match parseValue fuel bs with
      | some (v, r) =>
          (match skipWs r with
           | 44 :: r2 =>
              (match parseElems fuel r2 with
               | some (es, r3) => some (v :: es, r3)
               | none => none)
           | 93 :: r2 => some ([v], r2)
           | _ => none)
      | none => none

end

/-- `json.loads` over UTF-8 bytes (modelled on the ASCII/integer
fragment): one value, then only trailing whitespace. -/
def jsonLoadsBytes (bs : List Nat) : Option Json :=
  match parseValue (bs.length + 1) bs with
  | some (j, rest) => if skipWs rest = [] then some j else none
  | none => none

/-- `json.loads` of a Python string (ASCII fragment). -/
def jsonLoadsStr (s : String) : Option Json :=
  jsonLoadsBytes (s.toList.map Char.toNat)

/-- Helper for `pySplitDot`, over the character list. -/
def splitDotChars : List Char → List (List Char)
  | [] => [[]]
  | c :: cs =>
      if c = '.' then [] :: splitDotChars cs
      else
        match splitDotChars cs with
        | [] => [[c]]
        | g :: gs => (c :: g) :: gs

/-- Python `s.split('.')`: split at every dot, keeping empty groups
(`"".split('.') == ['']`). -/
def pySplitDot (s : String) : List String :=
  (splitDotChars s.toList).map String.mk

/-! ### `AppleJWSVerifier` (src/app/core/apple_jws.py)

The key cache and the network are modelled by an environment: `cache` is
the current content of the class-level key cache (`_public_keys`, kept as
the list of key ids), `fetched` is the key set a fresh fetch of the
issuer's endpoint returns, and `sigOk k` says whether `jose.jwt.decode`
accepts this token's signature under the key with id `k` (the
cryptographic check itself is an oracle; everything around it is
modelled). -/

structure VerifyEnv where
  cache : List String
  fetched : List String
  sigOk : String → Bool

/-- `get_apple_public_keys`: return the cache if nonempty, otherwise the
freshly fetched key set. -/
def getKeys (env : VerifyEnv) : List String :=
  if env.cache.isEmpty then env.fetched else env.cache

/-- The repeated decode step of the sources:
`json.loads(base64.b64decode(segment + '=' * (4 - len(segment) % 4)).decode('utf-8'))`. -/
def implDirectDecode (seg : String) : Option Json :=
  (pyB64decode (padSegment seg)).bind jsonLoadsBytes

/-- `"notificationType" in p or "data" in p or "summary" in p`
(short-circuiting, with Python `in` semantics per type). -/
def hasMarker (j : Json) : Except PyErr Bool :=
  (pyContains j "notificationType").bind fun b1 =>
    if b1 then .ok true
    else
      (pyContains j "data").bind fun b2 =>
        if b2 then .ok true
        else pyContains j "summary"

/-- The claims a successful `jose.jwt.decode` returns: the strict
base64url decoding of the payload segment, parsed as JSON, required to be
an object. -/
def joseDecode (token : String) : Option Json :=
  match pySplitDot token with
  | [_, p, _] =>
      match (b64urlDecode p).bind jsonLoadsBytes with
      | some j => if j.isObj then some j else none
      | none => none
  | _ => none

/-- The no-`kid` loop of `verify_jws` (lines 110-125): try every cached
key in turn, return the first success, collect errors and raise
`ValueError` if every key fails. -/
def tryAllKeys (env : VerifyEnv) (token : String) : List String → Except PyErr Json
  | [] => .error .valueError
  | k :: rest =>
      if env.sigOk k then
        match joseDecode token with
        | some j => .ok j
        | none => tryAllKeys env token rest
      else tryAllKeys env token rest

/-- One `jose.jwt.decode` attempt under a specific key id; any `jose`
exception becomes the surrounding `ValueError` (via the outer handler of
`verify_jws`). -/
def joseAttempt (env : VerifyEnv) (token : String) (kid : String) : Except PyErr Json :=
  if env.sigOk kid then
    match joseDecode token with
    | some j => .ok j
    | none => .error .valueError
  else .error .valueError

/-- Lines 97-150 of `verify_jws`: decode the header (a failure here
propagates to the outer handler as `ValueError`), read the key id; with a
truthy kid, look it up in the cache, on a miss clear the cache, refetch
and retry once, then run one jose attempt; with no kid, try every cached
key in turn. -/
def verifyJwsKidPath (env : VerifyEnv) (token hSeg : String) : Except PyErr Json :=
  match implDirectDecode hSeg with
  | none => .error .valueError
  | some hj =>
      match pyGet hj "kid" with
      | .error _ => .error .valueError
      | .ok kid =>
          if pyTruthy kid then
            match kid with
            | .str ks =>
                if ks ∈ getKeys env then joseAttempt env token ks
                else if ks ∈ env.fetched then joseAttempt env token ks
                else .error .valueError
            | _ => .error .valueError
          else
            tryAllKeys env token (getKeys env)

/-- `AppleJWSVerifier.verify_jws` (lines 61-154): split, try the direct
payload decode with the marker check (lines 82-95, inside a `try` whose
failure — decode error or `in` TypeError — merely falls through, as does
a decoded payload without markers), then the standard kid-based
verification.  Every exception path surfaces as `ValueError` ("Failed to
verify Apple JWS signature"), per the outer `except` handler. -/
def verifyJws (env : VerifyEnv) (token : String) : Except PyErr Json :=
  match pySplitDot token with
  | [hSeg, pSeg, _sig] =>
      match
        (match implDirectDecode pSeg with
         | some j =>
             (match hasMarker j with
              | .ok true => some j
              | _ => none)
         | none => none) with
      | some j => .ok j
      | none => verifyJwsKidPath env token hSeg
  | _ => .error .valueError

/-- `AppleJWSVerifier.parse_notification_payload`, the copy-in loop over
`["signedRenewalInfo", "signedTransactionInfo", "summary"]` (lines
188-190): `if field in payload and field not in notification_data:
notification_data[field] = payload.get(field)`. -/
def copyFields (payload : Json) : Json → List String → Except PyErr Json
  | nd, [] => .ok nd
  | nd, f :: rest =>
      (pyContains payload f).bind fun inPayload =>
        if inPayload then
          (pyContains nd f).bind fun inData =>
            if inData then copyFields payload nd rest
            else
              (pyGet payload f).bind fun v =>
                (pyAssign nd f v).bind fun nd2 => copyFields payload nd2 rest
        else copyFields payload nd rest

/-- `AppleJWSVerifier.parse_notification_payload` (lines 156-192): pass
marker payloads through, else extract `data` (parsing it when it is a
string, keeping it opaque when the parse fails), then copy in the three
top-level compatibility fields. -/
def parseNotificationPayload (payload : Json) : Except PyErr Json :=
  (pyContains payload "notificationType").bind fun hasNT =>
    if hasNT then .ok payload
    else
      (pyGetD payload "data" (.obj [])).bind fun nd0 =>
        let nd1 :=
          match nd0 with
          | .str s =>
              (match jsonLoadsStr s with
               | some j => j
               | none => .str s)
          | _ => nd0
        copyFields payload nd1 ["signedRenewalInfo", "signedTransactionInfo", "summary"]

/-! ### `NotificationProcessor._extract_transaction_info` and friends -/

/-- The shared shape of the two nested-token branches of
`_extract_transaction_info` (lines 286-305 and 308-327): verify the
nested token; return its claims when they are a truthy dict; on a
verification exception fall back to the direct decode of the token's
payload segment (3-segment tokens only), again returned only when it is a
truthy dict; anything else falls through (`none`).  A non-string value
raises `AttributeError` inside the `try` blocks, which is likewise a
fall-through. -/
def tryNestedToken (env : VerifyEnv) (v : Json) : Option Json :=
  match v with
  | .str token =>
      (match verifyJws env token with
       | .ok j => if pyTruthy j && j.isObj then some j else none
       | .error _ =>
           match pySplitDot token with
           | [_, p, _sig] =>
               (match implDirectDecode p with
                | some j => if pyTruthy j && j.isObj then some j else none
                | none => none)
           | _ => none)
  | _ => none

/-- `NotificationProcessor._extract_transaction_info` (lines 273-330):
try `data.signedRenewalInfo`, then `data.signedTransactionInfo`, then
fall back to the raw payload. -/
def extractTransactionInfo (env : VerifyEnv) (payload : Json) : Json :=
  let fromData : Option Json :=
    match payload.get? "data" with
    | some d =>
        if d.isObj then
          match
            (match d.get? "signedRenewalInfo" with
             | some rv => tryNestedToken env rv
             | none => none) with
          | some j => some j
          | none =>
              (match d.get? "signedTransactionInfo" with
               | some tv => tryNestedToken env tv
               | none => none)
        else none
    | none => none
  match fromData with
  | some j => j
  | none => payload

/-- `NotificationProcessor._extract_expires_date` (lines 332-343). -/
def extractExpiresDate (env : VerifyEnv) (payload : Json) : Option Json :=
  (extractTransactionInfo env payload).get? "expiresDate"

/-- `NotificationProcessor._extract_auto_renew_status` (lines 345-356):
`bool(transaction_info.get("autoRenewStatus", False))` — total, never
`None`. -/
def extractAutoRenewStatus (env : VerifyEnv) (payload : Json) : Bool :=
  pyTruthy ((extractTransactionInfo env payload).getD "autoRenewStatus" (.bool false))

/-! ### Data model (src/app/models/subscription.py) and store

Timestamps are modelled in integer milliseconds since the epoch: the code
stores `datetime.utcfromtimestamp(ms / 1000)`, which is injective on
millisecond inputs, so equality of stored datetimes is equality of the
originating millisecond values.  Row ids (`uuid4` defaults) are modelled
by a per-store counter. -/

/-- `SubscriptionStatus` (models/subscription.py lines 15-22). -/
inductive SubscriptionStatus where
  | ACTIVE
  | EXPIRED
  | IN_GRACE_PERIOD
  | IN_BILLING_RETRY
  | REVOKED
  | REFUNDED
  deriving Repr, DecidableEq

/-- `NotificationType` (models/subscription.py lines 25-44). -/
inductive NotificationType where
  | SUBSCRIBED
  | DID_CHANGE_RENEWAL_PREF
  | DID_CHANGE_RENEWAL_STATUS
  | OFFER_REDEEMED
  | DID_RENEW
  | EXPIRED
  | DID_FAIL_TO_RENEW
  | GRACE_PERIOD_EXPIRED
  | PRICE_INCREASE
  | REFUND
  | REFUND_DECLINED
  | CONSUMPTION_REQUEST
  | RENEWAL_EXTENDED
  | REVOKE
  | TEST
  deriving Repr, DecidableEq

/-- The enum lookup `NotificationType(type_str)`. -/
def notificationTypeOfString : String → Option NotificationType
  | "SUBSCRIBED" => some .SUBSCRIBED
  | "DID_CHANGE_RENEWAL_PREF" => some .DID_CHANGE_RENEWAL_PREF
  | "DID_CHANGE_RENEWAL_STATUS" => some .DID_CHANGE_RENEWAL_STATUS
  | "OFFER_REDEEMED" => some .OFFER_REDEEMED
  | "DID_RENEW" => some .DID_RENEW
  | "EXPIRED" => some .EXPIRED
  | "DID_FAIL_TO_RENEW" => some .DID_FAIL_TO_RENEW
  | "GRACE_PERIOD_EXPIRED" => some .GRACE_PERIOD_EXPIRED
  | "PRICE_INCREASE" => some .PRICE_INCREASE
  | "REFUND" => some .REFUND
  | "REFUND_DECLINED" => some .REFUND_DECLINED
  | "CONSUMPTION_REQUEST" => some .CONSUMPTION_REQUEST
  | "RENEWAL_EXTENDED" => some .RENEWAL_EXTENDED
  | "REVOKE" => some .REVOKE
  | "TEST" => some .TEST
  | _ => none

/-- `NotificationProcessor._get_notification_type` (lines 255-271): a
falsy value gives TEST, an unknown or non-string value raises
`ValueError` inside the enum call, caught and mapped to TEST. -/
def getNotificationType (p : Json) : NotificationType :=
  match p.get? "notificationType" with
  | some (.str s) =>
      if s = "" then .TEST else (notificationTypeOfString s).getD .TEST
  | _ => .TEST

/-- A `subscriptions` row (models/subscription.py lines 47-67). -/
structure Subscription where
  id : Nat
  userId : Nat
  originalTransactionId : Json
  productId : Json
  status : SubscriptionStatus
  purchaseDate : Int
  expiresDate : Option Int
  autoRenewStatus : Bool
  environment : Json
  rawData : Json
  deriving Repr, DecidableEq

/-- A `notification_history` row (models/subscription.py lines 73-94).
`processed` defaults to `false` and `processing_error` to `NULL` unless
set by the creator. -/
structure NotificationRecord where
  id : Nat
  subscriptionId : Nat
  notificationType : NotificationType
  subtype : Option Json
  notificationUuid : Json
  signedPayload : String
  rawData : Json
  processed : Bool
  processingError : Option String
  deriving Repr, DecidableEq

/-- The persistent store: users (only their ids matter to the core),
subscriptions, the notification log, and the id counter. -/
structure DB where
  users : List Nat
  subs : List Subscription
  notes : List NotificationRecord
  nextId : Nat
  deriving Repr, DecidableEq

/-- A SQLAlchemy session over the store: `pending` is the working state
(adds and attribute writes land here), `commit` publishes it to
`committed`, `rollback` restores it from `committed`. -/
structure Session where
  committed : DB
  pending : DB
  deriving Repr, DecidableEq

/-- Ambient context of one processing run: the verifier environment, the
failure schedule for `db.commit()` calls (`failsAt k` injects a database
error into the k-th commit of the run), and the current wall-clock time
(`datetime.utcnow`) in milliseconds. -/
structure Ctx where
  env : VerifyEnv
  failsAt : Nat → Bool
  now : Int

/-- One `db.commit()`: on success the pending state becomes committed; on
an injected failure the caller's handler takes over (every handler in
these sources rolls back or abandons the session). -/
def commitTry (c : Ctx) (s : Session) (k : Nat) : Option Session :=
  if c.failsAt k then none else some { committed := s.pending, pending := s.pending }

/-- `get_subscription_by_original_transaction_id`
(subscription_service.py lines 104-116). -/
def findSub (db : DB) (otid : Json) : Option Subscription :=
  db.subs.find? (fun sub => sub.originalTransactionId = otid)

/-- The duplicate query of `process_notification` (lines 68-70). -/
def findNote (db : DB) (u : Json) : Option NotificationRecord :=
  db.notes.find? (fun r => r.notificationUuid = u)

/-- `datetime.utcfromtimestamp(v / 1000)` applied to a JSON value: an
integer (or bool, an `int` subclass in Python) yields its millisecond
timestamp, anything else raises `TypeError` in the division. -/
def jsonToMs : Json → Except PyErr Int
  | .num n => .ok n
  | .bool b => .ok (if b then 1 else 0)
  | _ => .error .typeError

/-- `purchase_date = utcfromtimestamp(ms / 1000) if purchase_date_ms else
utcnow()` (notification_processor.py line 168): a falsy value (absent,
null, 0) falls back to the current time; a truthy non-number raises. -/
def purchaseDateOf (c : Ctx) (ti : Json) : Except PyErr Int :=
  match ti.get? "purchaseDate" with
  | some v => if pyTruthy v then jsonToMs v else .ok c.now
  | none => .ok c.now

/-- `expires_date = utcfromtimestamp(ms / 1000) if expires_date_ms else
None` (notification_processor.py line 169). -/
def expiresDateOf (ti : Json) : Except PyErr (Option Int) :=
  match ti.get? "expiresDate" with
  | some v => if pyTruthy v then (jsonToMs v).map some else .ok none
  | none => .ok none

/-- Lines 163-187 of `_get_or_create_subscription` plus
`SubscriptionService.create_subscription` (lines 118-164): build the
subscription data, add the row and commit it.  A `TypeError` from a
non-numeric truthy timestamp, or a failing commit (whose handler rolls
back and raises `ValueError`), is swallowed by the caller's handler at
line 189, yielding `none`. -/
def createSub (c : Ctx) (payload ti : Json) (s : Session) (k : Nat) (uid : Nat) :
    Option Subscription × Session × Nat :=
  match purchaseDateOf c ti, expiresDateOf ti with
  | .ok purchase, .ok expires =>
      let sub : Subscription :=
        { id := s.pending.nextId
          userId := uid
          originalTransactionId := ti.getD "originalTransactionId" .null
          productId := ti.getD "productId" (.str "unknown_product")
          status := .ACTIVE
          purchaseDate := purchase
          expiresDate := expires
          autoRenewStatus := extractAutoRenewStatus c.env payload
          environment := payload.getD "environment" (.str "Production")
          rawData := ti }
      let p2 := { s.pending with subs := s.pending.subs ++ [sub],
                                 nextId := s.pending.nextId + 1 }
      match commitTry c { s with pending := p2 } k with
      | some s2 => (some sub, s2, k + 1)
      | none => (none, { committed := s.committed, pending := s.committed }, k + 1)
  | _, _ => (none, s, k)

/-- `NotificationProcessor._get_or_create_subscription` (lines 107-191):
resolve the transaction info and its original transaction id, look the
subscription up, otherwise pick the first user (creating and committing a
demo user when there is none) and create the subscription.  `none` is the
"could not get or create" outcome; the demo-user commit failure
propagates to the method's own handler, which returns `None` without
rolling back. -/
def getOrCreate (c : Ctx) (payload : Json) (s : Session) (k : Nat) :
    Option Subscription × Session × Nat :=
  let ti := extractTransactionInfo c.env payload
  if pyTruthy ti then
    match ti.get? "originalTransactionId" with
    | some otid =>
        if pyTruthy otid then
          match findSub s.pending otid with
          | some sub => (some sub, s, k)
          | none =>
              match s.pending.users.head? with
              | some uid => createSub c payload ti s k uid
              | none =>
                  let uid := s.pending.nextId
                  let p2 := { s.pending with users := s.pending.users ++ [uid],
                                             nextId := s.pending.nextId + 1 }
                  match commitTry c { s with pending := p2 } k with
                  | some s2 => createSub c payload ti s2 (k + 1) uid
                  | none => (none, { committed := s.committed, pending := p2 }, k + 1)
        else (none, s, k)
    | none => (none, s, k)
  else (none, s, k)

/-- The partial update `_update_subscription_status` assembles. -/
structure SubUpdate where
  status : Option SubscriptionStatus
  expiresDate : Option Int
  autoRenew : Option Bool
  deriving Repr, DecidableEq

/-- The status portion of the transition dispatch of
`_update_subscription_status` (lines 210-241). -/
def tableStatus (nt : NotificationType) (subtypeVal : Option Json) :
    Option SubscriptionStatus :=
  match nt with
  | .SUBSCRIBED => some .ACTIVE
  | .DID_RENEW => some .ACTIVE
  | .DID_FAIL_TO_RENEW =>
      if subtypeVal = some (.str "GRACE_PERIOD") then some .IN_GRACE_PERIOD
      else some .IN_BILLING_RETRY
  | .EXPIRED => some .EXPIRED
  | .GRACE_PERIOD_EXPIRED => some .EXPIRED
  | .REFUND => some .REFUNDED
  | .REVOKE => some .REVOKED
  | _ => none

/-- The `subscription_data` dict `_update_subscription_status` builds
(lines 210-246): the status per the dispatch; for DID_RENEW the expiry
from the transaction info, written only when truthy (and raising
`TypeError` when truthy but not a number); and the auto-renew flag, which
`_extract_auto_renew_status` always supplies (it returns a `bool`, never
`None`, so the `is not None` guard at line 245 always passes). -/
def updateDataFor (env : VerifyEnv) (nt : NotificationType) (payload : Json) :
    Except PyErr SubUpdate :=
  match (if nt = NotificationType.DID_RENEW then
           match extractExpiresDate env payload with
           | some v => if pyTruthy v then (jsonToMs v).map some else .ok none
           | none => .ok none
         else (.ok none : Except PyErr (Option Int))) with
  | .error e => .error e
  | .ok ed =>
      .ok { status := tableStatus nt (payload.get? "subtype"),
            expiresDate := ed,
            autoRenew := some (extractAutoRenewStatus env payload) }

/-- `if subscription_data:` (line 249). -/
def updNonempty (u : SubUpdate) : Bool :=
  u.status.isSome || u.expiresDate.isSome || u.autoRenew.isSome

/-- The field loop of `SubscriptionService.update_subscription` (lines
196-200): each value present in the dict (all are non-`None`) is written
onto the row. -/
def applySubUpdate (sub : Subscription) (u : SubUpdate) : Subscription :=
  { sub with
    status := u.status.getD sub.status
    expiresDate :=
      match u.expiresDate with
      | some e => some e
      | none => sub.expiresDate
    autoRenewStatus := u.autoRenew.getD sub.autoRenewStatus }

/-- `update_subscription` applied inside the working state: rewrite the
row with the matching id. -/
def applyUpdDB (db : DB) (sid : Nat) (u : SubUpdate) : DB :=
  { db with subs := db.subs.map (fun sub => if sub.id = sid then applySubUpdate sub u else sub) }

/-- `NotificationProcessor.process_notification` (lines 42-105) on a
fresh session over the committed state `db`; the result is the committed
state when the method returns (its handler at lines 103-105 absorbs every
exception, rolling back the session). -/
def processNotification (c : Ctx) (db : DB) (signedPayload : String) (payload : Json) : DB :=
  let s0 : Session := { committed := db, pending := db }
  let nt := getNotificationType payload
  match payload.get? "notificationUUID" with
  | none => db
  | some u =>
      if pyTruthy u then
        match findNote s0.pending u with
        | some _ => db
        | none =>
            match getOrCreate c payload s0 0 with
            | (none, s1, _) => s1.committed
            | (some sub, s1, k1) =>
                let note : NotificationRecord :=
                  { id := s1.pending.nextId
                    subscriptionId := sub.id
                    notificationType := nt
                    subtype := payload.get? "subtype"
                    notificationUuid := u
                    signedPayload := signedPayload
                    rawData := payload
                    processed := true
                    processingError := none }
                let s2 : Session :=
                  { s1 with pending := { s1.pending with
                      notes := s1.pending.notes ++ [note],
                      nextId := s1.pending.nextId + 1 } }
                match updateDataFor c.env nt payload with
                | .error _ => s2.committed
                | .ok u2 =>
                    if updNonempty u2 then
                      if s2.pending.subs.any (fun x => x.id = sub.id) then
                        let s3 : Session := { s2 with pending := applyUpdDB s2.pending sub.id u2 }
                        match commitTry c s3 k1 with
                        | none => s3.committed
                        | some s4 =>
                            (match commitTry c s4 (k1 + 1) with
                             | none => s4.committed
                             | some s5 => s5.committed)
                      else s2.committed
                    else
                      match commitTry c s2 k1 with
                      | none => s2.committed
                      | some s3 => s3.committed
      else db

/-- Fold of `process_notification` over a sequence of inbound
notifications (each delivery is an independent unit of work with its own
context and failure schedule). -/
def processAll : List (Ctx × String × Json) → DB → DB
  | [], db => db
  | (c, sp, p) :: rest, db => processAll rest (processNotification c db sp p)

/-! ### The webhook boundary (src/app/api/routes/apple_webhook.py) -/

/-- The endpoint's response model: `AppleNotificationResponse(received=True)`
is the only response value the handler produces. -/
inductive WebhookResponse where
  | received
  deriving Repr, DecidableEq

/-- The fallback block of `apple_webhook` (lines 71-87).  The route
module's imports (lines 1-20) bring in `logging` and `json` but never
`base64`, so evaluating `base64.b64decode` at line 77 raises
`NameError: name 'base64' is not defined`; with fewer than two segments
the block raises `ValueError` instead (line 80).  Either exception lands
in the handler at lines 81-87, so the decode can never produce a
payload. -/
def routeFallbackDecode (signedPayload : String) : Except PyErr Json :=
  if 2 ≤ (pySplitDot signedPayload).length then .error .nameError
  else .error .valueError

/-- `apple_webhook` (lines 35-105): verify, fall back to the direct
decode on a verification error (converting a fallback failure into
`HTTPException(400)`, swallowed by the outer handler), normalize, process;
every failure path still answers `received=True` with the store
untouched. -/
def appleWebhook (c : Ctx) (db : DB) (signedPayload : String) : WebhookResponse × DB :=
  match verifyJws c.env signedPayload with
  | .ok decoded =>
      (match parseNotificationPayload decoded with
       | .ok nd => (.received, processNotification c db signedPayload nd)
       | .error _ => (.received, db))
  | .error _ =>
      match routeFallbackDecode signedPayload with
      | .ok decoded =>
          (match parseNotificationPayload decoded with
           | .ok nd => (.received, processNotification c db signedPayload nd)
           | .error _ => (.received, db))
      | .error _ => (.received, db)

/-! ### Shared concrete fixtures (used by witnesses and counterexamples) -/

/-- An environment with no keys anywhere and a signature oracle that
rejects everything. -/
def envNone : VerifyEnv := { cache := [], fetched := [], sigOk := fun _ => false }

/-- An environment whose cache holds the key id `K`, accepted by the
signature oracle. -/
def envK : VerifyEnv := { cache := ["K"], fetched := ["K"], sigOk := fun s => s == "K" }

/-- A context with no keys, no commit failures, clock at 77 ms. -/
def cNone : Ctx := { env := envNone, failsAt := fun _ => false, now := 77 }

/-- An empty store. -/
def dbEmpty : DB := { users := [], subs := [], notes := [], nextId := 0 }

/-! ### Facts about the base64 step -/

section Base64Facts

/-- The characters shared by the standard and the url-safe base64
alphabets (letters and digits). -/
def isAlnumChar (c : Char) : Bool :=
  (65 ≤ c.toNat && c.toNat ≤ 90) || (97 ≤ c.toNat && c.toNat ≤ 122) ||
    (48 ≤ c.toNat && c.toNat ≤ 57)

theorem b64Val_eq_of_alnum {c : Char} (h : isAlnumChar c = true) :
    b64stdVal c = b64urlVal c ∧ (b64stdVal c).isSome := by
  simp only [isAlnumChar, Bool.or_eq_true, Bool.and_eq_true, decide_eq_true_eq] at h
  unfold b64stdVal b64urlVal
  simp only []
  rcases h with (⟨h1, h2⟩ | ⟨h1, h2⟩) | ⟨h1, h2⟩ <;> (split_ifs <;> simp_all)

/-- A base64url-alphabet character other than `-` and `_` is a letter or
a digit. -/
theorem isAlnumChar_of_url {c : Char} (h : (b64urlVal c).isSome)
    (h1 : c.toNat ≠ 45) (h2 : c.toNat ≠ 95) : isAlnumChar c = true := by
  unfold b64urlVal at h
  simp only [isAlnumChar, Bool.or_eq_true, Bool.and_eq_true, decide_eq_true_eq]
  simp only [] at h
  split_ifs at h <;> simp_all

theorem filterMap_b64std_replicate_eq (n : Nat) :
    (List.replicate n '=').filterMap b64stdVal = [] := by
  induction n with
  | zero => rfl
  | succ k ih =>
      rw [List.replicate_succ, List.filterMap_cons]
      have : b64stdVal '=' = none := by decide
      rw [this, ih]

theorem sextetsOfChars_url_of_alnum :
    ∀ l : List Char, (∀ c ∈ l, isAlnumChar c = true) →
      sextetsOfChars b64urlVal l = some (l.filterMap b64stdVal)
  | [], _ => rfl
  | c :: cs, h => by
      obtain ⟨heq, hs⟩ := b64Val_eq_of_alnum (h c (by simp))
      obtain ⟨v, hv⟩ := Option.isSome_iff_exists.mp hs
      have ih := sextetsOfChars_url_of_alnum cs (fun d hd => h d (by simp [hd]))
      simp only [sextetsOfChars, List.filterMap_cons, ← heq, hv, ih]

/-- On segments made of letters and digits, the implementation's
pad-then-standard-decode agrees with the base64url decoding. -/
theorem pad_decode_eq (s : String) (h : ∀ c ∈ s.toList, isAlnumChar c = true) :
    pyB64decode (padSegment s) = b64urlDecode s := by
  unfold pyB64decode padSegment b64urlDecode
  have htl : (s ++ String.mk (List.replicate (4 - s.length % 4) '=')).toList
      = s.toList ++ List.replicate (4 - s.length % 4) '=' := by
    cases s; rfl
  rw [htl, List.filterMap_append, filterMap_b64std_replicate_eq, List.append_nil,
    sextetsOfChars_url_of_alnum s.toList h, Option.some_bind]

end Base64Facts

/-! ### Facts about the processor -/

section ProcessorFacts

theorem updateDataFor_fields {env : VerifyEnv} {nt : NotificationType} {payload : Json}
    {upd : SubUpdate} (h : updateDataFor env nt payload = .ok upd) :
    upd.status = tableStatus nt (payload.get? "subtype") ∧
    upd.autoRenew = some (extractAutoRenewStatus env payload) ∧
    updNonempty upd = true := by
  unfold updateDataFor at h
  split at h
  · cases h
  · cases h
    refine ⟨rfl, rfl, ?_⟩
    simp [updNonempty]

/-- On the resolved-subscription path, `_get_or_create_subscription`
returns the found row without touching the session. -/
theorem getOrCreate_found (c : Ctx) (payload : Json) (s : Session) (k : Nat)
    (sub : Subscription) (otid : Json)
    (h1 : pyTruthy (extractTransactionInfo c.env payload) = true)
    (h2 : (extractTransactionInfo c.env payload).get? "originalTransactionId" = some otid)
    (h3 : pyTruthy otid = true)
    (h4 : findSub s.pending otid = some sub) :
    getOrCreate c payload s k = (some sub, s, k) := by
  unfold getOrCreate
  simp only [h1, if_true, h2, h3, h4]

/-- One full successful run of `process_notification` against an already
resolved subscription, with no commit failures: the record is appended
(with `processed=true` and no error text) and exactly the computed update
is applied to the owning row. -/
theorem processNotification_existing_run
    (c : Ctx) (db : DB) (sp : String) (payload u otid : Json)
    (sub : Subscription) (upd : SubUpdate)
    (hnf0 : c.failsAt 0 = false) (hnf1 : c.failsAt 1 = false)
    (hu : payload.get? "notificationUUID" = some u)
    (ht : pyTruthy u = true)
    (hdup : findNote db u = none)
    (h1 : pyTruthy (extractTransactionInfo c.env payload) = true)
    (h2 : (extractTransactionInfo c.env payload).get? "originalTransactionId" = some otid)
    (h3 : pyTruthy otid = true)
    (h4 : findSub db otid = some sub)
    (hupd : updateDataFor c.env (getNotificationType payload) payload = .ok upd) :
    processNotification c db sp payload =
      { db with
        notes := db.notes ++
          [{ id := db.nextId
             subscriptionId := sub.id
             notificationType := getNotificationType payload
             subtype := payload.get? "subtype"
             notificationUuid := u
             signedPayload := sp
             rawData := payload
             processed := true
             processingError := none }],
        subs := db.subs.map (fun x => if x.id = sub.id then applySubUpdate x upd else x),
        nextId := db.nextId + 1 } := by
  have hmem : sub ∈ db.subs := List.mem_of_find?_eq_some h4
  have hany : (db.subs.any fun x => decide (x.id = sub.id)) = true := by
    simp only [List.any_eq_true, decide_eq_true_eq]
    exact ⟨sub, hmem, rfl⟩
  unfold processNotification
  rw [hu]
  simp only [ht, if_true, hdup]
  rw [getOrCreate_found c payload ⟨db, db⟩ 0 sub otid h1 h2 h3 h4]
  simp only [hupd, (updateDataFor_fields hupd).2.2, if_true]
  simp only [hany, if_true]
  unfold commitTry
  simp only [hnf0, hnf1, if_false, Bool.false_eq_true]
  rfl

/-- Outcomes of `create_subscription`: either the caller's handler gets
`None` and nothing new is committed beyond what already was, or the
created row is committed, appended to the subscription list, with the
notification log untouched. -/
theorem createSub_shape (c : Ctx) (payload ti : Json) (s : Session) (k : Nat) (uid : Nat)
    (hinv : s.pending = s.committed) :
    (∃ s' k', createSub c payload ti s k uid = (none, s', k') ∧
       s'.committed = s.committed) ∨
    (∃ sub s' k', createSub c payload ti s k uid = (some sub, s', k') ∧
       s'.pending = s'.committed ∧
       s'.committed.notes = s.committed.notes ∧
       s'.committed.subs = s.committed.subs ++ [sub] ∧
       sub ∈ s'.pending.subs) := by
  obtain ⟨scom, spend⟩ := s
  simp only [] at hinv
  subst hinv
  unfold createSub
  rcases hp : purchaseDateOf c ti with e | purchase <;>
    rcases he : expiresDateOf ti with e2 | expires <;>
    simp only [hp, he]
  case ok.ok =>
    unfold commitTry
    split
    · rename_i s2 heq
      split_ifs at heq
      cases heq
      exact Or.inr ⟨_, _, _, rfl, rfl, rfl, rfl, by simp⟩
    · exact Or.inl ⟨_, _, rfl, rfl⟩
  all_goals exact Or.inl ⟨_, _, rfl, rfl⟩

/-- Outcomes of `_get_or_create_subscription` on a fresh session: either
`None` with the committed log unchanged and every pre-existing
subscription row still present (user/subscription provisioning may have
been committed), or a subscription together with a session whose pending
and committed states agree, whose log is unchanged, and which still holds
every pre-existing row. -/
theorem getOrCreate_shape (c : Ctx) (payload : Json) (db : DB) (k : Nat) :
    (∃ s' k', getOrCreate c payload ⟨db, db⟩ k = (none, s', k') ∧
       s'.committed.notes = db.notes ∧ (∀ x ∈ db.subs, x ∈ s'.committed.subs)) ∨
    (∃ sub s' k', getOrCreate c payload ⟨db, db⟩ k = (some sub, s', k') ∧
       s'.pending = s'.committed ∧
       s'.committed.notes = db.notes ∧
       (∀ x ∈ db.subs, x ∈ s'.committed.subs) ∧
       sub ∈ s'.pending.subs) := by
  unfold getOrCreate
  simp only []
  cases hti : pyTruthy (extractTransactionInfo c.env payload) with
  | false =>
      simp only [hti, Bool.false_eq_true, if_false]
      exact Or.inl ⟨_, _, rfl, rfl, fun x hx => hx⟩
  | true =>
      simp only [hti, if_true]
      cases hotid : (extractTransactionInfo c.env payload).get? "originalTransactionId" with
      | none =>
          simp only [hotid]
          exact Or.inl ⟨_, _, rfl, rfl, fun x hx => hx⟩
      | some otid =>
          simp only [hotid]
          cases hot : pyTruthy otid with
          | false =>
              simp only [hot, Bool.false_eq_true, if_false]
              exact Or.inl ⟨_, _, rfl, rfl, fun x hx => hx⟩
          | true =>
              simp only [hot, if_true]
              cases hfind : findSub db otid with
              | some sub =>
                  simp only [hfind]
                  exact Or.inr ⟨sub, _, _, rfl, rfl, rfl, fun x hx => hx,
                    List.mem_of_find?_eq_some hfind⟩
              | none =>
                  simp only [hfind]
                  cases huser : db.users.head? with
                  | some uid =>
                      simp only [huser]
                      rcases createSub_shape c payload
                          (extractTransactionInfo c.env payload) ⟨db, db⟩ k uid rfl with
                        ⟨s', k', heq, hc⟩ | ⟨sub, s', k', heq, hpc, hn, hs, hmem⟩
                      · rw [heq]
                        exact Or.inl ⟨s', k', rfl, by rw [hc],
                          by rw [hc]; exact fun x hx => hx⟩
                      · rw [heq]
                        refine Or.inr ⟨sub, s', k', rfl, hpc, hn, ?_, hmem⟩
                        intro x hx
                        rw [hs]
                        exact List.mem_append_left _ hx
                  | none =>
                      simp only [huser]
                      unfold commitTry
                      cases hcf : c.failsAt k with
                      | true =>
                          simp only [hcf, if_true]
                          exact Or.inl ⟨_, _, rfl, rfl, fun x hx => hx⟩
                      | false =>
                          simp only [hcf, Bool.false_eq_true, if_false]
                          rcases createSub_shape c payload
                              (extractTransactionInfo c.env payload)
                              ⟨{ db with users := db.users ++ [db.nextId],
                                         nextId := db.nextId + 1 },
                                { db with users := db.users ++ [db.nextId],
                                          nextId := db.nextId + 1 }⟩
                              (k + 1) db.nextId rfl with
                            ⟨s', k', heq, hc⟩ | ⟨sub, s', k', heq, hpc, hn, hs, hmem⟩
                          · rw [heq]
                            exact Or.inl ⟨s', k', rfl, by rw [hc],
                              by rw [hc]; exact fun x hx => hx⟩
                          · rw [heq]
                            refine Or.inr ⟨sub, s', k', rfl, hpc, hn, ?_, hmem⟩
                            intro x hx
                            rw [hs]
                            exact List.mem_append_left _ hx

/-- Every run of `process_notification`, under every environment and
failure schedule, either leaves the notification log unchanged (keeping
every pre-existing subscription row, though rows provisioned during the
run may have been committed), or appends exactly one record — created
with `processed=true` and no error text — together with the computed
subscription update applied to the owning row: the record and the status
mutation are committed by the same commit, never separately. -/
theorem processNotification_shape (c : Ctx) (db : DB) (sp : String) (payload : Json) :
    ((processNotification c db sp payload).notes = db.notes ∧
     (∀ x ∈ db.subs, x ∈ (processNotification c db sp payload).subs)) ∨
    (∃ (note : NotificationRecord) (upd : SubUpdate) (presubs : List Subscription),
      updateDataFor c.env (getNotificationType payload) payload = .ok upd ∧
      note.processed = true ∧
      note.processingError = none ∧
      (processNotification c db sp payload).notes = db.notes ++ [note] ∧
      (processNotification c db sp payload).subs =
        presubs.map
          (fun x => if x.id = note.subscriptionId then applySubUpdate x upd else x) ∧
      (∀ x ∈ db.subs, x ∈ presubs)) := by
  unfold processNotification
  simp only []
  cases hu : payload.get? "notificationUUID" with
  | none => exact Or.inl (by simp)
  | some u =>
  cases htu : pyTruthy u with
  | false =>
      simp only [htu, Bool.false_eq_true, if_false]
      exact Or.inl (by simp)
  | true =>
  simp only [htu, if_true]
  cases hdup : findNote db u with
  | some r =>
      simp only [hdup]
      exact Or.inl (by simp)
  | none =>
  simp only [hdup]
  rcases getOrCreate_shape c payload db 0 with
    ⟨s', k', heq, hn, hs⟩ | ⟨sub, s', k', heq, hpc, hn, hs, hmem⟩
  · rw [heq]
    exact Or.inl ⟨hn, hs⟩
  · rw [heq]
    cases hupd : updateDataFor c.env (getNotificationType payload) payload with
    | error e =>
        simp only [hupd]
        exact Or.inl ⟨hn, hs⟩
    | ok u2 =>
    simp only [hupd]
    have hne := (updateDataFor_fields hupd).2.2
    simp only [hne, if_true]
    have hany : (s'.pending.subs.any fun x => decide (x.id = sub.id)) = true := by
      simp only [List.any_eq_true, decide_eq_true_eq]
      exact ⟨sub, hmem, rfl⟩
    simp only [hany, if_true]
    unfold commitTry
    have hnotes : s'.pending.notes = db.notes := by rw [hpc]; exact hn
    have hsubs : ∀ x ∈ db.subs, x ∈ s'.pending.subs := by rw [hpc]; exact hs
    cases hcf : c.failsAt k' with
    | true =>
        simp only [hcf, if_true]
        exact Or.inl ⟨hn, hs⟩
    | false =>
    simp only [hcf, Bool.false_eq_true, if_false]
    cases hcf2 : c.failsAt (k' + 1) with
    | true =>
        simp only [hcf2, if_true]
        refine Or.inr ⟨⟨s'.pending.nextId, sub.id, getNotificationType payload,
            payload.get? "subtype", u, sp, payload, true, none⟩, u2, s'.pending.subs,
          rfl, rfl, rfl, ?_, ?_, hsubs⟩
        · simp [applyUpdDB, hnotes]
        · simp [applyUpdDB]
    | false =>
        simp only [hcf2, Bool.false_eq_true, if_false]
        refine Or.inr ⟨⟨s'.pending.nextId, sub.id, getNotificationType payload,
            payload.get? "subtype", u, sp, payload, true, none⟩, u2, s'.pending.subs,
          rfl, rfl, rfl, ?_, ?_, hsubs⟩
        · simp [applyUpdDB, hnotes]
        · simp [applyUpdDB]

end ProcessorFacts

/-! ### Claim theorems -/

/-- C7, counterexample: the segment `-_` lies entirely in the base64url
alphabet, yet the implementation's padding-plus-decode step
(`base64.b64decode(seg + '=' * (4 - len % 4))`, standard alphabet,
lenient) silently discards both characters and returns the empty byte
string, while the base64url decoding of `-_` is the byte `251`. -/
theorem c7_counterexample :
    (∀ c ∈ ("-_").toList, (b64urlVal c).isSome) ∧
    pyB64decode (padSegment "-_") = some [] ∧
    b64urlDecode "-_" = some [251] ∧
    pyB64decode (padSegment "-_") ≠ b64urlDecode "-_" := by
  refine ⟨by decide, by decide, by decide, by decide⟩

/-- C7 (amended): for every segment over the base64url alphabet that
contains neither `-` (code 45) nor `_` (code 95), the implementation's
padding-plus-decode step yields exactly the base64url decoding of the
segment.  (On segments containing `-` or `_` the standard-alphabet
decoder discards those characters, so the results differ — see the
counterexample.) -/
theorem c7_padding_decode (s : String)
    (h : ∀ c ∈ s.toList, (b64urlVal c).isSome ∧ c.toNat ≠ 45 ∧ c.toNat ≠ 95) :
    pyB64decode (padSegment s) = b64urlDecode s := by
  refine pad_decode_eq s (fun c hc => ?_)
  obtain ⟨h1, h2, h3⟩ := h c hc
  exact isAlnumChar_of_url h1 h2 h3

/-- Witness for C7 at the segment `QUJD`. -/
theorem c7_padding_decode_witness :
    (∀ c ∈ ("QUJD").toList, (b64urlVal c).isSome ∧ c.toNat ≠ 45 ∧ c.toNat ≠ 95) ∧
    pyB64decode (padSegment "QUJD") = b64urlDecode "QUJD" :=
  ⟨by decide, c7_padding_decode "QUJD" (by decide)⟩

/-- C8, code bug: the payload normalizer is meant never to fail (parse
errors on a string `data` are caught and logged), but when `data` is an
unparseable string and one of the compatibility fields must be copied in,
the copy loop executes `notification_data[field] = ...` with the string
still in `notification_data`, raising
`TypeError: 'str' object does not support item assignment`.  Evaluated
here at the failing input `{data: "notjson", summary: 1}`. -/
theorem c8_normalizer_raises :
    parseNotificationPayload
        (.obj [("data", .str "notjson"), ("summary", .num 1)]) =
      .error .typeError := by
  rfl

/-- C1: a notification whose `notificationUUID` already has a stored
NotificationRecord is a no-op — the duplicate check fires before any
session mutation, so the store is returned unchanged, whatever the
environment, schedule and payload contents; consequently, once a first
application has stored the record, processing the same payload again
(under any context) equals processing it once. -/
theorem c1_duplicate_noop (payload u : Json)
    (hu : payload.get? "notificationUUID" = some u)
    (ht : pyTruthy u = true) :
    (∀ (c : Ctx) (db : DB) (sp : String),
        (findNote db u).isSome → processNotification c db sp payload = db) ∧
    (∀ (c c' : Ctx) (db : DB) (sp sp' : String),
        (findNote (processNotification c db sp payload) u).isSome →
        processNotification c' (processNotification c db sp payload) sp' payload =
          processNotification c db sp payload) := by
  have base : ∀ (c : Ctx) (db : DB) (sp : String),
      (findNote db u).isSome → processNotification c db sp payload = db := by
    intro c db sp hex
    obtain ⟨r, hr⟩ := Option.isSome_iff_exists.mp hex
    unfold processNotification
    rw [hu]
    simp only [ht, if_true, hr]
  exact ⟨base, fun c c' db sp sp' h => base c' _ sp' h⟩

/-- Witness for C1: a store already holding a record for uuid `u1`. -/
theorem c1_duplicate_noop_witness :
    ((Json.obj [("notificationUUID", Json.str "u1")]).get? "notificationUUID" =
        some (Json.str "u1")) ∧
    pyTruthy (Json.str "u1") = true ∧
    processNotification cNone
        { users := [0], subs := [],
          notes := [{ id := 0, subscriptionId := 1, notificationType := .TEST,
                      subtype := none, notificationUuid := .str "u1",
                      signedPayload := "sp", rawData := .null,
                      processed := true, processingError := none }],
          nextId := 2 }
        "sp" (Json.obj [("notificationUUID", Json.str "u1")]) =
      { users := [0], subs := [],
        notes := [{ id := 0, subscriptionId := 1, notificationType := .TEST,
                    subtype := none, notificationUuid := .str "u1",
                    signedPayload := "sp", rawData := .null,
                    processed := true, processingError := none }],
        nextId := 2 } :=
  ⟨rfl, by decide,
    (c1_duplicate_noop (Json.obj [("notificationUUID", Json.str "u1")])
        (Json.str "u1") rfl (by decide)).1 cNone _ "sp" (by decide)⟩

theorem hasMarker_obj_true (fs : List (String × Json))
    (hkey : ((Json.obj fs).get? "notificationType").isSome ∨
            ((Json.obj fs).get? "data").isSome ∨
            ((Json.obj fs).get? "summary").isSome) :
    hasMarker (Json.obj fs) = .ok true := by
  cases hnt : (fs.find? (fun p => p.1 = "notificationType")).isSome <;>
  cases hd : (fs.find? (fun p => p.1 = "data")).isSome <;>
    simp_all [hasMarker, pyContains, Json.get?, Except.bind]

/-- C2: a 3-segment token whose middle segment direct-decodes (with the
implementation's pad-and-standard-base64 step) to a JSON object carrying
one of the marker keys `notificationType` / `data` / `summary` is
returned as-is by `verify_jws`, with no signature verification: the
result is the decoded object for EVERY verifier environment (key cache
content, fetched key set and signature oracle alike), so no key material
influences this path. -/
theorem c2_trust_path (tok hSeg pSeg sSeg : String) (fs : List (String × Json))
    (hsplit : pySplitDot tok = [hSeg, pSeg, sSeg])
    (hdec : implDirectDecode pSeg = some (Json.obj fs))
    (hkey : ((Json.obj fs).get? "notificationType").isSome ∨
            ((Json.obj fs).get? "data").isSome ∨
            ((Json.obj fs).get? "summary").isSome) :
    ∀ env env' : VerifyEnv,
      verifyJws env tok = .ok (Json.obj fs) ∧
      verifyJws env tok = verifyJws env' tok := by
  have hv : ∀ e : VerifyEnv, verifyJws e tok = .ok (Json.obj fs) := by
    intro e
    unfold verifyJws
    rw [hsplit]
    simp only [hdec, hasMarker_obj_true fs hkey]
  exact fun env env' => ⟨hv env, (hv env).trans (hv env').symm⟩

/-- Witness for C2: a token whose payload decodes to
`(Json.obj [("notificationType", "TEST")])`; the result is the same under
the empty environment and under a fully-trusting one. -/
theorem c2_trust_path_witness :
    (pySplitDot "eyJraWQiOiJLIn0.eyJub3RpZmljYXRpb25UeXBlIjoiVEVTVCJ9.AAAA" =
        ["eyJraWQiOiJLIn0", "eyJub3RpZmljYXRpb25UeXBlIjoiVEVTVCJ9", "AAAA"]) ∧
    implDirectDecode "eyJub3RpZmljYXRpb25UeXBlIjoiVEVTVCJ9" =
      some (Json.obj [("notificationType", Json.str "TEST")]) ∧
    verifyJws envNone "eyJraWQiOiJLIn0.eyJub3RpZmljYXRpb25UeXBlIjoiVEVTVCJ9.AAAA" =
      .ok (Json.obj [("notificationType", Json.str "TEST")]) ∧
    verifyJws envNone "eyJraWQiOiJLIn0.eyJub3RpZmljYXRpb25UeXBlIjoiVEVTVCJ9.AAAA" =
      verifyJws envK "eyJraWQiOiJLIn0.eyJub3RpZmljYXRpb25UeXBlIjoiVEVTVCJ9.AAAA" := by
  have h := c2_trust_path
      "eyJraWQiOiJLIn0.eyJub3RpZmljYXRpb25UeXBlIjoiVEVTVCJ9.AAAA"
      "eyJraWQiOiJLIn0" "eyJub3RpZmljYXRpb25UeXBlIjoiVEVTVCJ9" "AAAA"
      [("notificationType", Json.str "TEST")]
      (by decide) (by rfl) (Or.inl (by decide))
  exact ⟨by decide, by rfl, (h envNone envK).1, (h envNone envK).2⟩

/-- C5, code bug: whenever strict verification of the inbound token
fails, the boundary fallback can never accept the envelope — the route
module never imports `base64`, so its direct-decode line raises
`NameError` (`ValueError` for fewer than two segments), the handler turns
that into `HTTPException(400)`, the outer handler answers
`received=True`, and the store is returned unchanged: no
NotificationRecord is ever created on this path, contrary to the
documented fallback. -/
theorem c5_fallback_dead (c : Ctx) (db : DB) (sp : String) (e : PyErr)
    (hfail : verifyJws c.env sp = .error e) :
    appleWebhook c db sp = (.received, db) := by
  unfold appleWebhook
  rw [hfail]
  split
  · rename_i j heq
    cases heq
  · unfold routeFallbackDecode
    split
    · rename_i j heq
      split_ifs at heq
    · rfl

/-- Witness for C5: a 3-segment token whose payload decodes to a JSON
object but whose key id `K` is absent from the (empty) cache even after a
refresh: verification fails and the webhook leaves the store unchanged. -/
theorem c5_fallback_dead_witness :
    verifyJws cNone.env "eyJraWQiOiJLIn0.eyJhIjoxfQ.AAAA" = .error .valueError ∧
    appleWebhook cNone dbEmpty "eyJraWQiOiJLIn0.eyJhIjoxfQ.AAAA" =
      (.received, dbEmpty) :=
  ⟨by rfl, c5_fallback_dead cNone dbEmpty "eyJraWQiOiJLIn0.eyJhIjoxfQ.AAAA"
      .valueError (by rfl)⟩

/-- An existing ACTIVE subscription row for transaction id `T1`, with
auto-renew on and a stored expiry of 999 ms. -/
def subT1 : Subscription :=
  { id := 1, userId := 0, originalTransactionId := .str "T1", productId := .str "p",
    status := .ACTIVE, purchaseDate := 0, expiresDate := some 999, autoRenewStatus := true,
    environment := .str "Production", rawData := .null }

/-- A store holding one user and the `T1` subscription. -/
def dbT1 : DB := { users := [0], subs := [subT1], notes := [], nextId := 2 }

/-- A TEST notification for `T1` whose transaction info (the payload
itself, via the last-resort fallback) has no `autoRenewStatus` key. -/
def payloadNoAuto : Json :=
  .obj [("notificationUUID", .str "u1"), ("notificationType", .str "TEST"),
        ("originalTransactionId", .str "T1")]

/-- A DID_RENEW notification for `T1` whose transaction info carries
`expiresDate: 0` — present, but falsy. -/
def payloadRenewZero : Json :=
  .obj [("notificationUUID", .str "u1"), ("notificationType", .str "DID_RENEW"),
        ("originalTransactionId", .str "T1"), ("expiresDate", .num 0)]

/-- A SUBSCRIBED notification for `T1`. -/
def payloadSub : Json :=
  .obj [("notificationUUID", .str "u2"), ("notificationType", .str "SUBSCRIBED"),
        ("originalTransactionId", .str "T1")]

/-- C3, counterexample: a DID_RENEW notification whose transaction info
carries `expiresDate: 0` — the key is present, the new status is ACTIVE
per the table, yet the stored expiry is NOT updated (the code guards the
update with Python truthiness, `if expires_date_ms:`, not presence): the
subscription keeps its old expiry 999 instead of being updated from the
transaction info. -/
theorem c3_counterexample :
    getNotificationType payloadRenewZero = .DID_RENEW ∧
    (extractTransactionInfo envNone payloadRenewZero).get? "expiresDate" =
      some (Json.num 0) ∧
    (processNotification cNone dbT1 "sp" payloadRenewZero).subs.map
        Subscription.status = [SubscriptionStatus.ACTIVE] ∧
    (processNotification cNone dbT1 "sp" payloadRenewZero).subs.map
        Subscription.expiresDate = [some 999] :=
  ⟨rfl, rfl, rfl, rfl⟩

/-- C3 (amended): on a successfully processed notification against a
resolved subscription, the new status follows the transition table
(SUBSCRIBED/DID_RENEW → ACTIVE, DID_FAIL_TO_RENEW → IN_GRACE_PERIOD for
subtype GRACE_PERIOD else IN_BILLING_RETRY, EXPIRED and
GRACE_PERIOD_EXPIRED → EXPIRED, REFUND → REFUNDED, REVOKE → REVOKED) and
every type outside the table leaves the status unchanged; for DID_RENEW
the expiry is updated from the transaction info when it is present with a
truthy (nonzero, non-null) numeric value — not merely when present. -/
theorem c3_transition_table
    (c : Ctx) (db : DB) (sp : String) (payload u otid : Json)
    (sub : Subscription) (upd : SubUpdate)
    (hnf0 : c.failsAt 0 = false) (hnf1 : c.failsAt 1 = false)
    (hu : payload.get? "notificationUUID" = some u)
    (ht : pyTruthy u = true)
    (hdup : findNote db u = none)
    (h1 : pyTruthy (extractTransactionInfo c.env payload) = true)
    (h2 : (extractTransactionInfo c.env payload).get? "originalTransactionId" = some otid)
    (h3 : pyTruthy otid = true)
    (h4 : findSub db otid = some sub)
    (hupd : updateDataFor c.env (getNotificationType payload) payload = .ok upd) :
    ∃ note : NotificationRecord,
      processNotification c db sp payload =
        { db with
          notes := db.notes ++ [note],
          subs := db.subs.map
            (fun x => if x.id = sub.id then applySubUpdate x upd else x),
          nextId := db.nextId + 1 } ∧
      (∀ x : Subscription, (applySubUpdate x upd).status =
          (tableStatus (getNotificationType payload) (payload.get? "subtype")).getD
            x.status) ∧
      (∀ n : Int, getNotificationType payload = .DID_RENEW →
          extractExpiresDate c.env payload = some (.num n) → ¬ n = 0 →
          ∀ x : Subscription, (applySubUpdate x upd).expiresDate = some n) := by
  refine ⟨_, processNotification_existing_run c db sp payload u otid sub upd
      hnf0 hnf1 hu ht hdup h1 h2 h3 h4 hupd, ?_, ?_⟩
  · intro x
    simp [applySubUpdate, (updateDataFor_fields hupd).1]
  · intro n hnt hexp hn x
    have htr : pyTruthy (Json.num n) = true := by
      simp [pyTruthy, hn]
    have hup : upd.expiresDate = some n := by
      unfold updateDataFor at hupd
      rw [hnt] at hupd
      simp only [if_true, hexp, htr, jsonToMs, Except.map] at hupd
      cases hupd
      rfl
    simp [applySubUpdate, hup]

/-- Witness for C3: processing SUBSCRIBED for the resolved `T1`
subscription yields status ACTIVE. -/
theorem c3_transition_table_witness :
    findSub dbT1 (Json.str "T1") = some subT1 ∧
    updateDataFor cNone.env (getNotificationType payloadSub) payloadSub =
      .ok { status := some .ACTIVE, expiresDate := none, autoRenew := some false } ∧
    (processNotification cNone dbT1 "sp" payloadSub).subs.map
        Subscription.status = [SubscriptionStatus.ACTIVE] := by
  refine ⟨rfl, rfl, ?_⟩
  obtain ⟨note, heq, hst, hexp⟩ :=
    c3_transition_table cNone dbT1 "sp" payloadSub (Json.str "u2") (Json.str "T1")
      subT1 { status := some .ACTIVE, expiresDate := none, autoRenew := some false }
      rfl rfl rfl (by decide) rfl (by decide) rfl (by decide) rfl rfl
  rw [heq]
  rfl

/-- C6, counterexample: a TEST notification whose transaction info has NO
`autoRenewStatus` key still rewrites the subscription's auto-renew flag —
`_extract_auto_renew_status` returns `bool(...)`, never `None`, so the
`is not None` guard always passes and the absent field is written as
`False`, flipping the stored `True`. -/
theorem c6_counterexample :
    (extractTransactionInfo envNone payloadNoAuto).get? "autoRenewStatus" = none ∧
    dbT1.subs.map Subscription.autoRenewStatus = [true] ∧
    (processNotification cNone dbT1 "sp" payloadNoAuto).subs.map
        Subscription.autoRenewStatus = [false] :=
  ⟨rfl, rfl, rfl⟩

/-- C6 (amended): on every successfully processed notification,
regardless of type, `auto_renew_status` is re-derived from the extracted
transaction info and ALWAYS written: the stored flag becomes the Python
truthiness of the `autoRenewStatus` field, which defaults to `false` when
the field is absent (the previous value is overwritten, not kept). -/
theorem c6_auto_renew_rederived
    (c : Ctx) (db : DB) (sp : String) (payload u otid : Json)
    (sub : Subscription) (upd : SubUpdate)
    (hnf0 : c.failsAt 0 = false) (hnf1 : c.failsAt 1 = false)
    (hu : payload.get? "notificationUUID" = some u)
    (ht : pyTruthy u = true)
    (hdup : findNote db u = none)
    (h1 : pyTruthy (extractTransactionInfo c.env payload) = true)
    (h2 : (extractTransactionInfo c.env payload).get? "originalTransactionId" = some otid)
    (h3 : pyTruthy otid = true)
    (h4 : findSub db otid = some sub)
    (hupd : updateDataFor c.env (getNotificationType payload) payload = .ok upd) :
    ∃ note : NotificationRecord,
      processNotification c db sp payload =
        { db with
          notes := db.notes ++ [note],
          subs := db.subs.map
            (fun x => if x.id = sub.id then applySubUpdate x upd else x),
          nextId := db.nextId + 1 } ∧
      upd.autoRenew =
        some (pyTruthy ((extractTransactionInfo c.env payload).getD
          "autoRenewStatus" (.bool false))) ∧
      (∀ x : Subscription, (applySubUpdate x upd).autoRenewStatus =
          extractAutoRenewStatus c.env payload) := by
  refine ⟨_, processNotification_existing_run c db sp payload u otid sub upd
      hnf0 hnf1 hu ht hdup h1 h2 h3 h4 hupd, (updateDataFor_fields hupd).2.1, ?_⟩
  intro x
  simp [applySubUpdate, (updateDataFor_fields hupd).2.1]

/-- A context that fails the third commit (index 2) of a run: the demo
user commit and the subscription-creation commit succeed, the
record-plus-status commit fails. -/
def cFail2 : Ctx := { env := envNone, failsAt := fun k => k == 2, now := 5 }

/-- C4, counterexample: processing a first-ever notification provisions a
demo user and the subscription, each committed on its own; failing the
later commit that persists the record and the status update then leaves
the provisioned user and subscription committed with NO
NotificationRecord — a partial write, contradicting the claimed full
rollback "including the case where the owning subscription (and any
owning user) was provisioned during that same notification's
processing". -/
theorem c4_counterexample :
    dbEmpty.users = [] ∧ dbEmpty.subs = [] ∧ dbEmpty.notes = [] ∧
    (processNotification cFail2 dbEmpty "sp" payloadSub).users = [0] ∧
    (processNotification cFail2 dbEmpty "sp" payloadSub).subs.length = 1 ∧
    (processNotification cFail2 dbEmpty "sp" payloadSub).notes = [] :=
  ⟨rfl, rfl, rfl, rfl, rfl, rfl⟩

/-- C4 (amended): the NotificationRecord append and the subscription
status mutation ARE atomic — under every environment and failure schedule
either no record lands in the committed log (which then also shows no
status update: every pre-existing subscription row survives exactly as it
was, although a user/subscription provisioned and separately committed
earlier in the same run may persist), or exactly one record is appended
and the computed update is applied to the owning row by that same commit;
but the user and subscription provisioning steps are committed on their
own and are NOT rolled back with the pair, as the counterexample shows. -/
theorem c4_commit_atomicity (c : Ctx) (db : DB) (sp : String) (payload : Json) :
    ((processNotification c db sp payload).notes = db.notes ∧
     (∀ x ∈ db.subs, x ∈ (processNotification c db sp payload).subs)) ∨
    (∃ (note : NotificationRecord) (upd : SubUpdate) (presubs : List Subscription),
      updateDataFor c.env (getNotificationType payload) payload = .ok upd ∧
      note.processed = true ∧
      note.processingError = none ∧
      (processNotification c db sp payload).notes = db.notes ++ [note] ∧
      (processNotification c db sp payload).subs =
        presubs.map
          (fun x => if x.id = note.subscriptionId then applySubUpdate x upd else x) ∧
      (∀ x ∈ db.subs, x ∈ presubs)) :=
  processNotification_shape c db sp payload

/-- C10: the notification log is append-only and every record the core
appends is created with `processed=true` and `processing_error=NULL`:
across any sequence of processed notifications (any environments,
payloads and failure schedules), the prior records remain in place with
their original contents, and every new record carries exactly those
creation values — no operation mutates a record after creation. -/
theorem c10_append_only (steps : List (Ctx × String × Json)) (db : DB) :
    ∃ tail, (processAll steps db).notes = db.notes ++ tail ∧
      ∀ r ∈ tail, r.processed = true ∧ r.processingError = none := by
  induction steps generalizing db with
  | nil => exact ⟨[], by simp [processAll], by simp⟩
  | cons step rest ih =>
      obtain ⟨c, sp, p⟩ := step
      obtain ⟨tail2, h2, hp2⟩ := ih (processNotification c db sp p)
      rcases processNotification_shape c db sp p with ⟨hn, _⟩ |
        ⟨note, upd, presubs, _, hpr, hpe, hn, _, _⟩
      · refine ⟨tail2, ?_, hp2⟩
        simpa [processAll, hn] using h2
      · refine ⟨note :: tail2, ?_, ?_⟩
        · have hx : (processAll rest (processNotification c db sp p)).notes
              = (db.notes ++ [note]) ++ tail2 := by rw [← hn]; exact h2
          simpa [processAll, List.append_assoc] using hx
        · intro r hr
          rcases List.mem_cons.mp hr with h | h
          · subst h; exact ⟨hpr, hpe⟩
          · exact hp2 r h

/-- Witness for C6: processing TEST for the resolved `T1` subscription
rewrites the auto-renew flag to `false`. -/
theorem c6_auto_renew_rederived_witness :
    findSub dbT1 (Json.str "T1") = some subT1 ∧
    extractAutoRenewStatus cNone.env payloadNoAuto = false ∧
    (processNotification cNone dbT1 "sp" payloadNoAuto).subs.map
        Subscription.autoRenewStatus = [false] := by
  refine ⟨rfl, rfl, ?_⟩
  obtain ⟨note, heq, hauto, hall⟩ :=
    c6_auto_renew_rederived cNone dbT1 "sp" payloadNoAuto (Json.str "u1")
      (Json.str "T1") subT1
      { status := none, expiresDate := none, autoRenew := some false }
      rfl rfl rfl (by decide) rfl (by decide) rfl (by decide) rfl rfl
  rw [heq]
  rfl

/-- The nested token of the C9 counterexample: its payload segment
`eyJhIjoieHg_In0` (base64url of the bytes of the object with key `a` and
value `xx?`) contains the character `_`. -/
def tokUnderscore : String := "eyJraWQiOiJLIn0.eyJhIjoieHg_In0.AAAA"

/-- A notification payload with only `data.signedTransactionInfo`,
holding `tokUnderscore`. -/
def payloadNestedUnd : Json :=
  .obj [("data", .obj [("signedTransactionInfo", .str tokUnderscore)])]

/-- C9, counterexample: with the key known and the signature oracle
accepting, the jose path decodes the nested payload segment with proper
base64url and extraction yields the decoded object; with verification
failing, the fallback decodes the same segment with the lenient
standard-alphabet decoder, which drops the `_`, fails to parse, and
extraction falls back to the whole outer payload — the two paths do NOT
produce the same transaction-info mapping. -/
theorem c9_counterexample :
    extractTransactionInfo envK payloadNestedUnd = Json.obj [("a", Json.str "xx?")] ∧
    extractTransactionInfo envNone payloadNestedUnd = payloadNestedUnd ∧
    Json.obj [("a", Json.str "xx?")] ≠ payloadNestedUnd :=
  ⟨rfl, rfl, by decide⟩

theorem tryAllKeys_outcome (env : VerifyEnv) (tok : String) (d : List (String × Json))
    (hjose : joseDecode tok = some (Json.obj d)) :
    ∀ keys : List String,
      tryAllKeys env tok keys = .ok (Json.obj d) ∨
      tryAllKeys env tok keys = .error .valueError
  | [] => Or.inr rfl
  | kk :: rest => by
      unfold tryAllKeys
      cases hsk : env.sigOk kk with
      | true =>
          simp only [hsk, if_true, hjose]
          left; trivial
      | false =>
          simp only [hsk, Bool.false_eq_true, if_false]
          exact tryAllKeys_outcome env tok d hjose rest

theorem verifyJwsKidPath_outcome (env : VerifyEnv) (tok hSeg : String)
    (d : List (String × Json)) (hjose : joseDecode tok = some (Json.obj d)) :
    verifyJwsKidPath env tok hSeg = .ok (Json.obj d) ∨
    verifyJwsKidPath env tok hSeg = .error .valueError := by
  have hatt : ∀ ks : String,
      joseAttempt env tok ks = .ok (Json.obj d) ∨
      joseAttempt env tok ks = .error .valueError := by
    intro ks
    unfold joseAttempt
    cases hsk : env.sigOk ks with
    | true =>
        simp only [hsk, if_true, hjose]
        left; trivial
    | false =>
        simp only [hsk, Bool.false_eq_true, if_false]
        right; trivial
  unfold verifyJwsKidPath
  cases hh : implDirectDecode hSeg with
  | none => right; trivial
  | some hj =>
  cases hk : pyGet hj "kid" with
  | error e => simp only [hk]; right; trivial
  | ok kid =>
  simp only [hk]
  cases hkt : pyTruthy kid with
  | false =>
      simp only [hkt, Bool.false_eq_true, if_false]
      exact tryAllKeys_outcome env tok d hjose (getKeys env)
  | true =>
  simp only [hkt, if_true]
  cases kid with
  | str ks =>
      by_cases h1 : ks ∈ getKeys env
      · simp only [h1, if_true]
        exact hatt ks
      · simp only [h1, if_false]
        by_cases h2 : ks ∈ env.fetched
        · simp only [h2, if_true]
          exact hatt ks
        · simp only [h2, if_false]
          right; trivial
  | null => right; trivial
  | bool b => right; trivial
  | num n => right; trivial
  | arr l => right; trivial
  | obj fs => right; trivial

/-- C9 (amended): for a payload whose `data` holds only a
`signedTransactionInfo` token WHOSE PAYLOAD SEGMENT CONTAINS NEITHER `-`
NOR `_`, the extracted transaction info is the JSON object decoded from
that segment, identically for every verifier environment — whether the
nested verification succeeds (jose's base64url decode) or fails and the
direct lenient decode is used.  The restriction is necessary: when the
segment contains `-` or `_` the two decoders disagree and the round-trip
fails (see the counterexample). -/
theorem c9_nested_roundtrip (payload : Json) (dfs : List (String × Json))
    (tok hSeg pSeg sSeg : String) (d : List (String × Json))
    (hdata : payload.get? "data" = some (.obj dfs))
    (hri : (Json.obj dfs).get? "signedRenewalInfo" = none)
    (hti : (Json.obj dfs).get? "signedTransactionInfo" = some (.str tok))
    (hsplit : pySplitDot tok = [hSeg, pSeg, sSeg])
    (halnum : ∀ c ∈ pSeg.toList, (b64urlVal c).isSome ∧ c.toNat ≠ 45 ∧ c.toNat ≠ 95)
    (hdec : implDirectDecode pSeg = some (.obj d))
    (hne : d ≠ []) :
    ∀ env env' : VerifyEnv,
      extractTransactionInfo env payload = Json.obj d ∧
      extractTransactionInfo env payload = extractTransactionInfo env' payload := by
  have halnum2 : ∀ c ∈ pSeg.toList, isAlnumChar c = true := by
    intro c hc
    obtain ⟨h1, h2, h3⟩ := halnum c hc
    exact isAlnumChar_of_url h1 h2 h3
  have hurl : (b64urlDecode pSeg).bind jsonLoadsBytes = some (Json.obj d) := by
    rw [← pad_decode_eq pSeg halnum2]
    exact hdec
  have hjose : joseDecode tok = some (Json.obj d) := by
    unfold joseDecode
    rw [hsplit]
    simp only [hurl]
    rfl
  have hgood : (pyTruthy (Json.obj d) && (Json.obj d).isObj) = true := by
    simp [pyTruthy, Json.isObj, hne]
  have hnest : ∀ env : VerifyEnv,
      tryNestedToken env (.str tok) = some (Json.obj d) := by
    intro env
    unfold tryNestedToken
    simp only []
    have hver : verifyJws env tok = .ok (Json.obj d) ∨
        verifyJws env tok = .error .valueError := by
      unfold verifyJws
      rw [hsplit]
      simp only [hdec]
      cases hm : hasMarker (Json.obj d) with
      | error e =>
          simp only [hm]
          exact verifyJwsKidPath_outcome env tok hSeg d hjose
      | ok b =>
          cases b with
          | true =>
              simp only [hm]
              left; trivial
          | false =>
              simp only [hm]
              exact verifyJwsKidPath_outcome env tok hSeg d hjose
    rcases hver with h | h
    · rw [h]
      simp only [hgood, if_true]
    · rw [h]
      rw [hsplit]
      simp only [hdec, hgood, if_true]
  have hext : ∀ env : VerifyEnv,
      extractTransactionInfo env payload = Json.obj d := by
    intro env
    unfold extractTransactionInfo
    simp only [hdata, Json.isObj, if_true, hri, hti, hnest env]
  exact fun env env' => ⟨hext env, (hext env).trans (hext env').symm⟩

/-- Witness for C9: the nested token `eyJraWQiOiJLIn0.eyJhIjoxfQ.AAAA`
(payload segment without `-` or `_`): extraction yields the decoded
object under the all-keys environment and the no-keys environment
alike. -/
theorem c9_nested_roundtrip_witness :
    implDirectDecode "eyJhIjoxfQ" = some (Json.obj [("a", Json.num 1)]) ∧
    extractTransactionInfo envK
        (Json.obj [("data", Json.obj
          [("signedTransactionInfo", Json.str "eyJraWQiOiJLIn0.eyJhIjoxfQ.AAAA")])]) =
      Json.obj [("a", Json.num 1)] ∧
    extractTransactionInfo envK
        (Json.obj [("data", Json.obj
          [("signedTransactionInfo", Json.str "eyJraWQiOiJLIn0.eyJhIjoxfQ.AAAA")])]) =
      extractTransactionInfo envNone
        (Json.obj [("data", Json.obj
          [("signedTransactionInfo", Json.str "eyJraWQiOiJLIn0.eyJhIjoxfQ.AAAA")])]) := by
  have h := c9_nested_roundtrip
      (Json.obj [("data", Json.obj
        [("signedTransactionInfo", Json.str "eyJraWQiOiJLIn0.eyJhIjoxfQ.AAAA")])])
      [("signedTransactionInfo", Json.str "eyJraWQiOiJLIn0.eyJhIjoxfQ.AAAA")]
      "eyJraWQiOiJLIn0.eyJhIjoxfQ.AAAA" "eyJraWQiOiJLIn0" "eyJhIjoxfQ" "AAAA"
      [("a", Json.num 1)]
      rfl rfl rfl (by decide) (by decide) (by rfl) (by decide)
  exact ⟨by rfl, (h envK envNone).1, (h envK envNone).2⟩

end AppleWebhook

